import Mathlib

/-!
Shallow embedding of `skills/vibe-slides/scripts/vibe-slides.mjs` — the CLI
client that creates a presentation deck, polls the deck-generation job, starts
and polls an export job, and downloads the resulting artifact.

Modelling conventions:
* Times and intervals are rationals (milliseconds for clock values, seconds for
  configured intervals, matching the source's `wait * 1000` conversions).
* A JSON field that may be absent is an `Option`; the source's destructuring
  defaults (`slides_count = 0`) become `.getD 0`, and JS truthiness of a string
  field (`exp.download_url`, `res.headers.location`) is `jsTruthy`: present and
  non-empty.
* The `retry-after` response header is modelled as its numeric value when
  present as a non-empty numeric string, `none` otherwise.
* Each network interaction of a polling loop is an event carrying the response
  received and the request latency `rt` (milliseconds, supplied by the
  environment); the loop consumes one event per iteration, so the event list's
  length is the fuel. An exhausted event list with the deadline not yet reached
  is the `pending` outcome (the process is still waiting on the network).
* `process.exit(1)` becomes the `fatalExit` outcome; logging is not modelled.
* `path.resolve(outDir, name)` is modelled as string concatenation with `/`;
  no claim depends on path normalisation.
-/

namespace VibeSlides

/-- CLI options consumed by the flow (lines 48-57 of the source): poll
intervals and timeout in seconds, the `--no-export` flag, export format,
output directory and optional filename stem. -/
structure Config where
  pollDeck : ℚ
  pollExport : ℚ
  timeout : ℚ
  noExport : Bool
  format : String
  outDir : String
  filename : Option String
  deriving Repr, DecidableEq

/-- JS truthiness of an optional string-valued field: the field is present and
its value is a non-empty string. -/
def jsTruthy : Option String → Bool
  | none => false
  | some s => s != ""

/-- Body of a `GET /v1/decks/:id` response (line 160): lifecycle status,
optional slide counts, optional error message. -/
structure DeckBody where
  status : String
  slides_count : Option ℤ
  slides_complete : Option ℤ
  errorMsg : Option String
  deriving Repr, DecidableEq

/-- A deck-poll HTTP exchange: HTTP status code, optional numeric
`retry-after` header, and the parsed body. -/
structure DeckResp where
  httpStatus : ℕ
  retryAfter : Option ℚ
  deck : DeckBody
  deriving Repr, DecidableEq

/-- One iteration's environment input to the deck poll loop: the response and
the request latency in milliseconds. -/
structure DeckEvent where
  resp : DeckResp
  rt : ℚ
  deriving Repr, DecidableEq

/-- Per-response decision of the deck poller, lines 155-177 of the source. -/
inductive DeckStep where
  | fatalHttp (code : ℕ)
  | fatalError
  | success (d : DeckBody)
  | wait (w : ℚ)
  deriving Repr, DecidableEq

/-- Wait interval for a non-terminal deck response, line 171:
`Number(res.headers["retry-after"] || pollDeck)`. -/
def deckWait (cfg : Config) (r : DeckResp) : ℚ :=
  r.retryAfter.getD cfg.pollDeck

/-- The deck poller's handling of one response (lines 155-177): non-200 HTTP
status exits fatally; `status == "error"` exits fatally; `status == "complete"`
with a positive slide count and all slides complete is terminal success;
anything else waits `deckWait`. -/
def deckStep (cfg : Config) (r : DeckResp) : DeckStep :=
  if r.httpStatus ≠ 200 then .fatalHttp r.httpStatus
  else if r.deck.status = "error" then .fatalError
  else if r.deck.status = "complete" ∧ r.deck.slides_count.getD 0 > 0 ∧
      r.deck.slides_complete.getD 0 ≥ r.deck.slides_count.getD 0 then
    .success r.deck
  else .wait (deckWait cfg r)

/-- Outcome of the deck poll loop. `pending` marks an exhausted event list
with the deadline not reached (the process is still awaiting the network). -/
inductive DeckOutcome where
  | success (d : DeckBody)
  | fatalExit
  | timeoutExit
  | pending
  deriving Repr, DecidableEq

/-- The deck poll loop body (lines 153-180): while `now < deadline`, consume
one event, act on `deckStep`, and on a wait advance the clock by the request
latency plus `wait * 1000` ms. Falling out of the loop is the timeout exit. -/
def pollDeckLoop (cfg : Config) (deadline : ℚ) : ℚ → List DeckEvent → DeckOutcome
  | now, [] => if now < deadline then .pending else .timeoutExit
  | now, e :: rest =>
    if now < deadline then
      match deckStep cfg e.resp with
      | .fatalHttp _ => .fatalExit
      | .fatalError => .fatalExit
      | .success d => .success d
      | .wait w => pollDeckLoop cfg deadline (now + e.rt + w * 1000) rest
    else .timeoutExit

/-- `pollDeckStatus` (lines 150-181): the deadline is computed once at loop
entry as `Date.now() + timeout * 1000`. -/
def pollDeckStatus (cfg : Config) (now : ℚ) (events : List DeckEvent) : DeckOutcome :=
  pollDeckLoop cfg (now + cfg.timeout * 1000) now events

/-- Body of a `GET /v1/decks/:id/export` response (line 205): status, optional
download URL, optional numeric progress, optional error message. -/
structure ExportBody where
  status : String
  download_url : Option String
  progress : Option ℚ
  errorMsg : Option String
  deriving Repr, DecidableEq

/-- An export-poll HTTP exchange: HTTP status code and parsed body. -/
structure ExportResp where
  httpStatus : ℕ
  body : ExportBody
  deriving Repr, DecidableEq

/-- One iteration's environment input to the export poll loop. -/
structure ExportEvent where
  resp : ExportResp
  rt : ℚ
  deriving Repr, DecidableEq

/-- The adaptive interval of line 217:
`progress >= 50 ? Math.max(0.3, pollExport * 0.3) : pollExport`. -/
def nextExportInterval (cfg : Config) (p : ℚ) : ℚ :=
  if p ≥ 50 then max (3/10 : ℚ) (cfg.pollExport * (3/10)) else cfg.pollExport

/-- Per-response decision of the export poller, lines 200-218 of the source. -/
inductive ExportStep where
  | transientRetry
  | success (b : ExportBody)
  | fatalError
  | wait (w : ℚ)
  deriving Repr, DecidableEq

/-- The export poller's handling of one response (lines 200-218): non-200 HTTP
status is a transient retry; `status == "complete"` or a truthy `download_url`
is terminal success; `status == "error"` exits fatally; otherwise wait the
adaptive interval computed from `progress || 0`. -/
def exportStep (cfg : Config) (r : ExportResp) : ExportStep :=
  if r.httpStatus ≠ 200 then .transientRetry
  else if r.body.status = "complete" ∨ jsTruthy r.body.download_url = true then
    .success r.body
  else if r.body.status = "error" then .fatalError
  else .wait (nextExportInterval cfg (r.body.progress.getD 0))

/-- Outcome of the export poll loop. -/
inductive ExportOutcome where
  | success (b : ExportBody)
  | fatalExit
  | timeoutExit
  | pending
  deriving Repr, DecidableEq

/-- The export poll loop body (lines 196-221): while `now < deadline`, consume
one event; a transient retry sleeps the current `interval`, a non-terminal
response sleeps and carries the freshly computed adaptive interval. -/
def pollExportLoop (cfg : Config) (deadline : ℚ) : ℚ → ℚ → List ExportEvent → ExportOutcome
  | now, _, [] => if now < deadline then .pending else .timeoutExit
  | now, interval, e :: rest =>
    if now < deadline then
      match exportStep cfg e.resp with
      | .transientRetry => pollExportLoop cfg deadline (now + e.rt + interval * 1000) interval rest
      | .success b => .success b
      | .fatalError => .fatalExit
      | .wait w => pollExportLoop cfg deadline (now + e.rt + w * 1000) w rest
    else .timeoutExit

/-- `pollExportStatus` (lines 194-222): deadline computed once as
`Date.now() + timeout * 1000`; the mutable `interval` starts at `pollExport`. -/
def pollExportStatus (cfg : Config) (now : ℚ) (events : List ExportEvent) : ExportOutcome :=
  pollExportLoop cfg (now + cfg.timeout * 1000) now cfg.pollExport events

/-- A response to one request issued by `download`: status code and optional
`Location` header. -/
structure DlResp where
  statusCode : ℕ
  location : Option String
  deriving Repr, DecidableEq

/-- Line 109's redirect test:
`res.statusCode >= 300 && res.statusCode < 400 && res.headers.location`. -/
def isRedirect (r : DlResp) : Bool :=
  decide (300 ≤ r.statusCode) && decide (r.statusCode < 400) && jsTruthy r.location

/-- Filesystem side effects of `download` on the destination path. -/
inductive FileEvent where
  | create
  | unlink
  | write
  deriving Repr, DecidableEq

/-- Settlement of the promise returned by `download`: resolved, rejected with
the HTTP status code, or still pending (no further response arrived). -/
inductive DlResult where
  | success
  | failed (code : ℕ)
  | pending
  deriving Repr, DecidableEq

/-- `download(url, dest)` (lines 103-123), driven by the list of successive
responses (one per issued request). Returns the promise settlement, the
destination-file event trace, and the sequence of URLs requested. Each call
first creates the write stream; a redirect (3xx with truthy `Location`)
unlinks the file and recurses on the `Location` value; any other non-200
status rejects with the code; a 200 writes the body and resolves. -/
def download : String → List DlResp → DlResult × (List FileEvent × List String)
  | url, [] => (.pending, ([.create], [url]))
  | url, r :: rest =>
    if isRedirect r then
      let sub := download (r.location.getD "") rest
      (sub.1, (.create :: .unlink :: sub.2.1, url :: sub.2.2))
    else if r.statusCode ≠ 200 then (.failed r.statusCode, ([.create], [url]))
    else (.success, ([.create, .write], [url]))

/-- The first non-redirect response in a chain: the response at which the
recursion in `download` terminates. -/
def firstNonRedirect : List DlResp → Option DlResp
  | [] => none
  | r :: rest => if isRedirect r then firstNonRedirect rest else some r

/-- Body of a successful `POST /v1/decks` response: deck id and name. -/
structure CreatedDeck where
  id : String
  name : String
  deriving Repr, DecidableEq

/-- The `POST /v1/decks` exchange (lines 136-148). -/
structure CreateResp where
  httpStatus : ℕ
  deck : CreatedDeck
  deriving Repr, DecidableEq

/-- The `POST /v1/decks/:id/export` exchange (lines 183-192). -/
structure StartResp where
  httpStatus : ℕ
  export_id : String
  deriving Repr, DecidableEq

/-- The final JSON summary printed to stdout (lines 242 and 270-277). Fields
absent from the `--no-export` record (`format`, `file`) are `none` there. -/
structure Summary where
  id : String
  name : String
  slides : Option ℤ
  fmt : Option String
  file : Option String
  url : String
  deriving Repr, DecidableEq

/-- Externally observable steps of `main`: API calls issued, the download, and
the two stdout lines (`FILE: <path>` and the JSON summary). -/
inductive Action where
  | createDeck
  | pollDeck
  | startExport
  | pollExport
  | downloadFile (path : String)
  | stdoutFILE (path : String)
  | stdoutJSON (s : Summary)
  deriving Repr, DecidableEq

/-- How the process ends: normal return, `process.exit(1)` (or the rejection
handler at line 280), or blocked forever on a promise that never settles. -/
inductive MainResult where
  | ok
  | exitNonZero
  | hang
  deriving Repr, DecidableEq

/-- `main` (lines 226-280): create deck, poll generation, then either stop
with a summary (`--no-export`) or start and poll the export, check for a
truthy `download_url`, download, and print `FILE:` plus the summary. The
network environment is given by the create/start responses, the two poll
event lists with their loop-entry clocks, and the download response chain. -/
def mainFlow (cfg : Config) (prompt : String) (create : CreateResp)
    (now1 : ℚ) (devts : List DeckEvent) (startRes : StartResp)
    (now2 : ℚ) (eevts : List ExportEvent) (dlResps : List DlResp) :
    List Action × MainResult :=
  if prompt = "" then ([], .exitNonZero)
  else if create.httpStatus ≠ 200 then ([.createDeck], .exitNonZero)
  else
    match pollDeckStatus cfg now1 devts with
    | .pending => ([.createDeck, .pollDeck], .hang)
    | .fatalExit => ([.createDeck, .pollDeck], .exitNonZero)
    | .timeoutExit => ([.createDeck, .pollDeck], .exitNonZero)
    | .success completedDeck =>
      if cfg.noExport then
        ([.createDeck, .pollDeck,
          .stdoutJSON ⟨create.deck.id, create.deck.name, completedDeck.slides_count,
            none, none, "https://vibeslides.app/d/" ++ create.deck.id⟩], .ok)
      else if startRes.httpStatus ≠ 200 then
        ([.createDeck, .pollDeck, .startExport], .exitNonZero)
      else
        match pollExportStatus cfg now2 eevts with
        | .pending => ([.createDeck, .pollDeck, .startExport, .pollExport], .hang)
        | .fatalExit => ([.createDeck, .pollDeck, .startExport, .pollExport], .exitNonZero)
        | .timeoutExit => ([.createDeck, .pollDeck, .startExport, .pollExport], .exitNonZero)
        | .success exp =>
          if jsTruthy exp.download_url = false then
            ([.createDeck, .pollDeck, .startExport, .pollExport], .exitNonZero)
          else
            let ext := if cfg.format = "pptx" then "pptx" else "pdf"
            let outName := cfg.filename.getD ("deck-" ++ create.deck.id.take 8)
            let outPath := cfg.outDir ++ "/" ++ outName ++ "." ++ ext
            match (download (exp.download_url.getD "") dlResps).1 with
            | .pending =>
              ([.createDeck, .pollDeck, .startExport, .pollExport,
                .downloadFile outPath], .hang)
            | .failed _ =>
              ([.createDeck, .pollDeck, .startExport, .pollExport,
                .downloadFile outPath], .exitNonZero)
            | .success =>
              ([.createDeck, .pollDeck, .startExport, .pollExport,
                .downloadFile outPath, .stdoutFILE outPath,
                .stdoutJSON ⟨create.deck.id, create.deck.name,
                  completedDeck.slides_count, some ext, some outPath,
                  "https://vibeslides.app/d/" ++ create.deck.id⟩], .ok)

/-! ### Case lemmas for the step functions and loop bodies -/

theorem deckStep_fatalHttp (cfg : Config) (r : DeckResp) (h : r.httpStatus ≠ 200) :
    deckStep cfg r = .fatalHttp r.httpStatus := by
  unfold deckStep
  rw [if_pos h]

theorem deckStep_fatalError (cfg : Config) (r : DeckResp) (h200 : r.httpStatus = 200)
    (herr : r.deck.status = "error") : deckStep cfg r = .fatalError := by
  unfold deckStep
  rw [if_neg (by simp [h200]), if_pos herr]

theorem deckStep_success (cfg : Config) (r : DeckResp) (h200 : r.httpStatus = 200)
    (hc : r.deck.status = "complete" ∧ r.deck.slides_count.getD 0 > 0 ∧
      r.deck.slides_complete.getD 0 ≥ r.deck.slides_count.getD 0) :
    deckStep cfg r = .success r.deck := by
  unfold deckStep
  rw [if_neg (by simp [h200]), if_neg (by rw [hc.1]; decide), if_pos hc]

theorem deckStep_wait (cfg : Config) (r : DeckResp) (h200 : r.httpStatus = 200)
    (herr : r.deck.status ≠ "error")
    (hnc : ¬(r.deck.status = "complete" ∧ r.deck.slides_count.getD 0 > 0 ∧
      r.deck.slides_complete.getD 0 ≥ r.deck.slides_count.getD 0)) :
    deckStep cfg r = .wait (deckWait cfg r) := by
  unfold deckStep
  rw [if_neg (by simp [h200]), if_neg herr, if_neg hnc]

theorem pollDeckLoop_cons_wait (cfg : Config) (deadline now w : ℚ) (e : DeckEvent)
    (rest : List DeckEvent) (hdl : now < deadline) (hs : deckStep cfg e.resp = .wait w) :
    pollDeckLoop cfg deadline now (e :: rest) =
      pollDeckLoop cfg deadline (now + e.rt + w * 1000) rest := by
  conv_lhs => rw [pollDeckLoop]
  rw [if_pos hdl, hs]

theorem pollDeckLoop_cons_success (cfg : Config) (deadline now : ℚ) (e : DeckEvent)
    (rest : List DeckEvent) (d : DeckBody) (hdl : now < deadline)
    (hs : deckStep cfg e.resp = .success d) :
    pollDeckLoop cfg deadline now (e :: rest) = .success d := by
  unfold pollDeckLoop
  rw [if_pos hdl, hs]

theorem pollDeckLoop_cons_fatalError (cfg : Config) (deadline now : ℚ) (e : DeckEvent)
    (rest : List DeckEvent) (hdl : now < deadline) (hs : deckStep cfg e.resp = .fatalError) :
    pollDeckLoop cfg deadline now (e :: rest) = .fatalExit := by
  unfold pollDeckLoop
  rw [if_pos hdl, hs]

theorem pollDeckLoop_cons_fatalHttp (cfg : Config) (deadline now : ℚ) (e : DeckEvent)
    (rest : List DeckEvent) (c : ℕ) (hdl : now < deadline)
    (hs : deckStep cfg e.resp = .fatalHttp c) :
    pollDeckLoop cfg deadline now (e :: rest) = .fatalExit := by
  unfold pollDeckLoop
  rw [if_pos hdl, hs]

theorem exportStep_transient (cfg : Config) (r : ExportResp) (h : r.httpStatus ≠ 200) :
    exportStep cfg r = .transientRetry := by
  unfold exportStep
  rw [if_pos h]

theorem exportStep_success (cfg : Config) (r : ExportResp) (h200 : r.httpStatus = 200)
    (hor : r.body.status = "complete" ∨ jsTruthy r.body.download_url = true) :
    exportStep cfg r = .success r.body := by
  unfold exportStep
  rw [if_neg (by simp [h200]), if_pos hor]

theorem exportStep_fatalError (cfg : Config) (r : ExportResp) (h200 : r.httpStatus = 200)
    (hnor : ¬(r.body.status = "complete" ∨ jsTruthy r.body.download_url = true))
    (herr : r.body.status = "error") : exportStep cfg r = .fatalError := by
  unfold exportStep
  rw [if_neg (by simp [h200]), if_neg hnor, if_pos herr]

theorem exportStep_wait (cfg : Config) (r : ExportResp) (h200 : r.httpStatus = 200)
    (hnor : ¬(r.body.status = "complete" ∨ jsTruthy r.body.download_url = true))
    (herr : r.body.status ≠ "error") :
    exportStep cfg r = .wait (nextExportInterval cfg (r.body.progress.getD 0)) := by
  unfold exportStep
  rw [if_neg (by simp [h200]), if_neg hnor, if_neg herr]

theorem pollExportLoop_cons_transient (cfg : Config) (deadline now interval : ℚ)
    (e : ExportEvent) (rest : List ExportEvent) (hdl : now < deadline)
    (hs : exportStep cfg e.resp = .transientRetry) :
    pollExportLoop cfg deadline now interval (e :: rest) =
      pollExportLoop cfg deadline (now + e.rt + interval * 1000) interval rest := by
  conv_lhs => rw [pollExportLoop]
  rw [if_pos hdl, hs]

theorem pollExportLoop_cons_success (cfg : Config) (deadline now interval : ℚ)
    (e : ExportEvent) (rest : List ExportEvent) (b : ExportBody) (hdl : now < deadline)
    (hs : exportStep cfg e.resp = .success b) :
    pollExportLoop cfg deadline now interval (e :: rest) = .success b := by
  unfold pollExportLoop
  rw [if_pos hdl, hs]

theorem pollExportLoop_cons_fatalError (cfg : Config) (deadline now interval : ℚ)
    (e : ExportEvent) (rest : List ExportEvent) (hdl : now < deadline)
    (hs : exportStep cfg e.resp = .fatalError) :
    pollExportLoop cfg deadline now interval (e :: rest) = .fatalExit := by
  unfold pollExportLoop
  rw [if_pos hdl, hs]

theorem pollExportLoop_cons_wait (cfg : Config) (deadline now interval w : ℚ)
    (e : ExportEvent) (rest : List ExportEvent) (hdl : now < deadline)
    (hs : exportStep cfg e.resp = .wait w) :
    pollExportLoop cfg deadline now interval (e :: rest) =
      pollExportLoop cfg deadline (now + e.rt + w * 1000) w rest := by
  conv_lhs => rw [pollExportLoop]
  rw [if_pos hdl, hs]

/-! ### Concrete inputs used by witnesses -/

/-- Default configuration: `--poll-deck 5 --poll-export 1 --timeout 600`. -/
def cfg0 : Config := ⟨5, 1, 600, false, "pdf", ".", none⟩

/-- A deck response: HTTP 200, `status=complete`, 5 slides, 3 rendered. -/
def dEvt1 : DeckEvent := ⟨⟨200, none, ⟨"complete", some 5, some 3, none⟩⟩, 100⟩

/-- An export response: HTTP 200, `status=pending` with a download URL set. -/
def eEvt1 : ExportEvent :=
  ⟨⟨200, ⟨"pending", some "https://cdn.vibeslides.app/x.pdf", some 90, none⟩⟩, 100⟩

/-- A deck poll exchange that failed at the HTTP level (status 500). -/
def dEvt500 : DeckEvent := ⟨⟨500, none, ⟨"generating", some 5, some 1, none⟩⟩, 0⟩

/-- A terminal-success deck response: `complete` with all 5 slides rendered. -/
def dEvtOK : DeckEvent := ⟨⟨200, none, ⟨"complete", some 5, some 5, none⟩⟩, 0⟩

/-- An export poll exchange that failed at the HTTP level (status 500). -/
def eEvt500 : ExportEvent := ⟨⟨500, ⟨"processing", none, some 10, none⟩⟩, 0⟩

/-- An export response with `status=error` AND a download URL present. -/
def eEvtErrUrl : ExportEvent :=
  ⟨⟨200, ⟨"error", some "https://cdn.vibeslides.app/x.pdf", none, some "boom"⟩⟩, 0⟩

/-- An export response with `status=error` and no download URL. -/
def eEvtErr : ExportEvent := ⟨⟨200, ⟨"error", none, none, some "boom"⟩⟩, 0⟩

/-- A non-terminal export response reporting 90% progress. -/
def eEvtProg : ExportEvent := ⟨⟨200, ⟨"processing", none, some 90, none⟩⟩, 100⟩

/-- A non-terminal deck response carrying a `retry-after: 7` header. -/
def dEvtRA : DeckEvent := ⟨⟨200, some 7, ⟨"generating", some 5, some 1, none⟩⟩, 100⟩

/-! ### Claims -/

/-- C1: the deck poller treats a (HTTP-200) poll response as terminal success
exactly when `status = "complete"`, `slides_count > 0` and
`slides_complete ≥ slides_count`; for a `complete` response whose slide counts
do not satisfy this, the loop does not terminate: it continues polling on the
remaining events after the computed wait. -/
theorem deck_terminal_success_iff (cfg : Config) (deadline now : ℚ) (e : DeckEvent)
    (rest : List DeckEvent) (h200 : e.resp.httpStatus = 200) (hdl : now < deadline) :
    (deckStep cfg e.resp = .success e.resp.deck ↔
      (e.resp.deck.status = "complete" ∧ e.resp.deck.slides_count.getD 0 > 0 ∧
        e.resp.deck.slides_complete.getD 0 ≥ e.resp.deck.slides_count.getD 0)) ∧
    (e.resp.deck.status = "complete" →
      (e.resp.deck.slides_count.getD 0 ≤ 0 ∨
        e.resp.deck.slides_complete.getD 0 < e.resp.deck.slides_count.getD 0) →
      pollDeckLoop cfg deadline now (e :: rest) =
        pollDeckLoop cfg deadline (now + e.rt + deckWait cfg e.resp * 1000) rest) := by
  constructor
  · constructor
    · intro h
      by_cases herr : e.resp.deck.status = "error"
      · rw [deckStep_fatalError cfg e.resp h200 herr] at h
        exact absurd h (by simp)
      · by_cases hc : (e.resp.deck.status = "complete" ∧ e.resp.deck.slides_count.getD 0 > 0 ∧
            e.resp.deck.slides_complete.getD 0 ≥ e.resp.deck.slides_count.getD 0)
        · exact hc
        · rw [deckStep_wait cfg e.resp h200 herr hc] at h
          exact absurd h (by simp)
    · intro hc
      exact deckStep_success cfg e.resp h200 hc
  · intro hcomp hlt
    have herr : e.resp.deck.status ≠ "error" := by rw [hcomp]; decide
    have hnc : ¬(e.resp.deck.status = "complete" ∧ e.resp.deck.slides_count.getD 0 > 0 ∧
        e.resp.deck.slides_complete.getD 0 ≥ e.resp.deck.slides_count.getD 0) := by
      rintro ⟨-, hpos, hge⟩
      rcases hlt with h | h
      · exact absurd hpos (not_lt.mpr h)
      · exact absurd hge (not_le.mpr h)
    exact pollDeckLoop_cons_wait cfg deadline now _ e rest hdl
      (deckStep_wait cfg e.resp h200 herr hnc)

/-- Witness for C1 at a concrete input: a `complete` deck response with 3 of 5
slides rendered is not terminal; the loop proceeds to the remaining events. -/
theorem deck_terminal_success_iff_witness :
    dEvt1.resp.httpStatus = 200 ∧ (0 : ℚ) < 1000 ∧
    dEvt1.resp.deck.status = "complete" ∧
    dEvt1.resp.deck.slides_complete.getD 0 < dEvt1.resp.deck.slides_count.getD 0 ∧
    pollDeckLoop cfg0 1000 0 (dEvt1 :: []) =
      pollDeckLoop cfg0 1000 (0 + dEvt1.rt + deckWait cfg0 dEvt1.resp * 1000) [] :=
  ⟨rfl, by decide, rfl, by decide,
    (deck_terminal_success_iff cfg0 1000 0 dEvt1 [] rfl (by decide)).2 rfl
      (Or.inr (by decide))⟩

/-- C2: the export poller treats a (HTTP-200) poll response as terminal
success when `status = "complete"` OR `download_url` is truthy; in particular
a truthy `download_url` with a non-`complete` status terminates the loop
successfully, returning that response body. -/
theorem export_terminal_or (cfg : Config) (deadline now interval : ℚ) (e : ExportEvent)
    (rest : List ExportEvent) (h200 : e.resp.httpStatus = 200) (hdl : now < deadline) :
    ((e.resp.body.status = "complete" ∨ jsTruthy e.resp.body.download_url = true) →
      pollExportLoop cfg deadline now interval (e :: rest) = .success e.resp.body) ∧
    (jsTruthy e.resp.body.download_url = true → e.resp.body.status ≠ "complete" →
      pollExportLoop cfg deadline now interval (e :: rest) = .success e.resp.body) := by
  constructor
  · intro hor
    exact pollExportLoop_cons_success cfg deadline now interval e rest _ hdl
      (exportStep_success cfg e.resp h200 hor)
  · intro hurl _
    exact pollExportLoop_cons_success cfg deadline now interval e rest _ hdl
      (exportStep_success cfg e.resp h200 (Or.inr hurl))

/-- Witness for C2 at a concrete input: an export response with
`status = "pending"` but a download URL present is terminal success. -/
theorem export_terminal_or_witness :
    eEvt1.resp.httpStatus = 200 ∧ (0 : ℚ) < 1000 ∧
    jsTruthy eEvt1.resp.body.download_url = true ∧
    eEvt1.resp.body.status ≠ "complete" ∧
    pollExportLoop cfg0 1000 0 1 (eEvt1 :: []) = .success eEvt1.resp.body :=
  ⟨rfl, by decide, by decide, by decide,
    (export_terminal_or cfg0 1000 0 1 eEvt1 [] rfl (by decide)).2 (by decide) (by decide)⟩

/-- C3 counterexample: the claim says a non-2xx HTTP status on a status-check
is never fatal in either loop, but the deck poller exits the process on a 500
even when the very next response would have been terminal success. -/
theorem deck_poll_http_error_fatal_cex :
    pollDeckStatus cfg0 0 [dEvt500, dEvtOK] = .fatalExit := by
  simp [pollDeckStatus, pollDeckLoop, deckStep, cfg0, dEvt500, dEvtOK]

/-- C3 (amended): a non-200 HTTP status on the status-check request is
transient only in the export poll, where the loop retries after the current
interval; in the deck poll it is fatal — the process exits non-zero. -/
theorem poll_http_error_behavior (cfg : Config) (deadline now interval : ℚ)
    (de : DeckEvent) (drest : List DeckEvent) (ee : ExportEvent) (erest : List ExportEvent)
    (hdl : now < deadline) (hd : de.resp.httpStatus ≠ 200) (he : ee.resp.httpStatus ≠ 200) :
    pollDeckLoop cfg deadline now (de :: drest) = .fatalExit ∧
    pollExportLoop cfg deadline now interval (ee :: erest) =
      pollExportLoop cfg deadline (now + ee.rt + interval * 1000) interval erest := by
  constructor
  · exact pollDeckLoop_cons_fatalHttp cfg deadline now de drest _ hdl
      (deckStep_fatalHttp cfg de.resp hd)
  · exact pollExportLoop_cons_transient cfg deadline now interval ee erest hdl
      (exportStep_transient cfg ee.resp he)

/-- Witness for the amended C3 at concrete inputs: a 500 on the deck poll is
fatal; a 500 on the export poll retries after the current interval. -/
theorem poll_http_error_behavior_witness :
    (0 : ℚ) < 1000 ∧ dEvt500.resp.httpStatus ≠ 200 ∧ eEvt500.resp.httpStatus ≠ 200 ∧
    pollDeckLoop cfg0 1000 0 [dEvt500] = .fatalExit ∧
    pollExportLoop cfg0 1000 0 1 [eEvt500] =
      pollExportLoop cfg0 1000 (0 + eEvt500.rt + 1 * 1000) 1 [] :=
  ⟨by decide, by decide, by decide,
    (poll_http_error_behavior cfg0 1000 0 1 dEvt500 [] eEvt500 [] (by decide)
      (by decide) (by decide)).1,
    (poll_http_error_behavior cfg0 1000 0 1 dEvt500 [] eEvt500 [] (by decide)
      (by decide) (by decide)).2⟩

/-- C4 counterexample: the claim says every poll response with
`status = "error"` makes the poller fail immediately, but an export response
with `status = "error"` and a download URL present is returned as terminal
success — the error exit is never reached. -/
theorem export_error_with_url_not_fatal_cex :
    pollExportStatus cfg0 0 [eEvtErrUrl] = .success eEvtErrUrl.resp.body ∧
    ExportOutcome.success eEvtErrUrl.resp.body ≠ .fatalExit := by
  constructor
  · simp [pollExportStatus, pollExportLoop, exportStep, jsTruthy, cfg0, eEvtErrUrl]
  · decide

/-- C4 (amended): a deck response with `status = "error"` fails immediately
(no further poll iteration, and the orchestrator issues no export call after a
fatal deck poll); an export response with `status = "error"` fails immediately
exactly when its `download_url` is not truthy — otherwise the success branch,
checked first, wins. -/
theorem error_status_fatal_amended (cfg : Config) (deadline now interval : ℚ)
    (de : DeckEvent) (drest : List DeckEvent) (ee : ExportEvent) (erest : List ExportEvent)
    (hdl : now < deadline)
    (hd200 : de.resp.httpStatus = 200) (hderr : de.resp.deck.status = "error")
    (he200 : ee.resp.httpStatus = 200) (heerr : ee.resp.body.status = "error")
    (heurl : jsTruthy ee.resp.body.download_url = false) :
    pollDeckLoop cfg deadline now (de :: drest) = .fatalExit ∧
    pollExportLoop cfg deadline now interval (ee :: erest) = .fatalExit ∧
    (∀ (prompt : String) (create : CreateResp) (now1 : ℚ) (devts : List DeckEvent)
      (startRes : StartResp) (now2 : ℚ) (eevts : List ExportEvent) (dlResps : List DlResp),
      prompt ≠ "" → create.httpStatus = 200 →
      pollDeckStatus cfg now1 devts = .fatalExit →
      mainFlow cfg prompt create now1 devts startRes now2 eevts dlResps =
        ([.createDeck, .pollDeck], .exitNonZero)) := by
  refine ⟨?_, ?_, ?_⟩
  · exact pollDeckLoop_cons_fatalError cfg deadline now de drest hdl
      (deckStep_fatalError cfg de.resp hd200 hderr)
  · have hnor : ¬(ee.resp.body.status = "complete" ∨
        jsTruthy ee.resp.body.download_url = true) := by
      rintro (hc | hu)
      · rw [heerr] at hc; exact absurd hc (by decide)
      · rw [heurl] at hu; exact absurd hu (by decide)
    exact pollExportLoop_cons_fatalError cfg deadline now interval ee erest hdl
      (exportStep_fatalError cfg ee.resp he200 hnor heerr)
  · intro prompt create now1 devts startRes now2 eevts dlResps hp hc hpoll
    unfold mainFlow
    rw [if_neg hp, if_neg (by simp [hc]), hpoll]

/-- Witness for the amended C4 at concrete inputs: a deck `status=error`
response exits fatally even with a good response queued behind it; an export
`status=error` response without a URL exits fatally; a fatal deck poll stops
`main` before any export call. -/
theorem error_status_fatal_amended_witness :
    (0 : ℚ) < 1000 ∧
    pollDeckLoop cfg0 1000 0 [⟨⟨200, none, ⟨"error", some 5, some 1, some "bad"⟩⟩, 0⟩, dEvtOK] =
      .fatalExit ∧
    pollExportLoop cfg0 1000 0 1 [eEvtErr] = .fatalExit ∧
    mainFlow cfg0 "Quarterly update" ⟨200, ⟨"deck-abc12345", "Q"⟩⟩ 0
      [⟨⟨200, none, ⟨"error", some 5, some 1, some "bad"⟩⟩, 0⟩] ⟨200, "e1"⟩ 0 [] [] =
      ([.createDeck, .pollDeck], .exitNonZero) := by
  have h := error_status_fatal_amended cfg0 1000 0 1
    ⟨⟨200, none, ⟨"error", some 5, some 1, some "bad"⟩⟩, 0⟩ [dEvtOK] eEvtErr []
    (by decide) (by decide) (by decide) (by decide) (by decide) (by decide)
  exact ⟨by decide, h.1, h.2.1,
    h.2.2 "Quarterly update" ⟨200, ⟨"deck-abc12345", "Q"⟩⟩ 0
      [⟨⟨200, none, ⟨"error", some 5, some 1, some "bad"⟩⟩, 0⟩] ⟨200, "e1"⟩ 0 [] []
      (by decide) (by decide)
      (by simp [pollDeckStatus, pollDeckLoop, deckStep, cfg0])⟩

/-- C10: the export poller checks its success condition before its error
condition, so an error-status response with a truthy `download_url` is
terminal success (handed to the download stage), and the fatal error exit
happens exactly when `status = "error"` and `download_url` is not truthy. -/
theorem export_success_checked_before_error (cfg : Config) (deadline now interval : ℚ)
    (e : ExportEvent) (rest : List ExportEvent) (hdl : now < deadline)
    (h200 : e.resp.httpStatus = 200) (herr : e.resp.body.status = "error") :
    (jsTruthy e.resp.body.download_url = true →
      pollExportLoop cfg deadline now interval (e :: rest) = .success e.resp.body) ∧
    (jsTruthy e.resp.body.download_url = false →
      pollExportLoop cfg deadline now interval (e :: rest) = .fatalExit) := by
  constructor
  · intro hurl
    exact pollExportLoop_cons_success cfg deadline now interval e rest _ hdl
      (exportStep_success cfg e.resp h200 (Or.inr hurl))
  · intro hurl
    have hnor : ¬(e.resp.body.status = "complete" ∨
        jsTruthy e.resp.body.download_url = true) := by
      rintro (hc | hu)
      · rw [herr] at hc; exact absurd hc (by decide)
      · rw [hurl] at hu; exact absurd hu (by decide)
    exact pollExportLoop_cons_fatalError cfg deadline now interval e rest hdl
      (exportStep_fatalError cfg e.resp h200 hnor herr)

/-- Witness for C10 at concrete inputs: with `status=error`, a present URL
yields terminal success and an absent URL yields the fatal exit. -/
theorem export_success_checked_before_error_witness :
    (0 : ℚ) < 1000 ∧ eEvtErrUrl.resp.body.status = "error" ∧
    jsTruthy eEvtErrUrl.resp.body.download_url = true ∧
    pollExportLoop cfg0 1000 0 1 [eEvtErrUrl] = .success eEvtErrUrl.resp.body ∧
    pollExportLoop cfg0 1000 0 1 [eEvtErr] = .fatalExit :=
  ⟨by decide, by decide, by decide,
    (export_success_checked_before_error cfg0 1000 0 1 eEvtErrUrl [] (by decide)
      (by decide) (by decide)).1 (by decide),
    (export_success_checked_before_error cfg0 1000 0 1 eEvtErr [] (by decide)
      (by decide) (by decide)).2 (by decide)⟩

/-- C5: on a non-terminal export response reporting progress `p`, the next
wait interval (both slept and carried into the next iteration) is the full
configured interval when `p < 50`, and `max(0.3, configured * 0.3)` when
`p ≥ 50`. -/
theorem export_adaptive_interval (cfg : Config) (deadline now interval : ℚ)
    (e : ExportEvent) (rest : List ExportEvent) (hdl : now < deadline)
    (h200 : e.resp.httpStatus = 200)
    (hnor : ¬(e.resp.body.status = "complete" ∨ jsTruthy e.resp.body.download_url = true))
    (herr : e.resp.body.status ≠ "error") :
    pollExportLoop cfg deadline now interval (e :: rest) =
      pollExportLoop cfg deadline
        (now + e.rt + nextExportInterval cfg (e.resp.body.progress.getD 0) * 1000)
        (nextExportInterval cfg (e.resp.body.progress.getD 0)) rest ∧
    (e.resp.body.progress.getD 0 < 50 →
      nextExportInterval cfg (e.resp.body.progress.getD 0) = cfg.pollExport) ∧
    (e.resp.body.progress.getD 0 ≥ 50 →
      nextExportInterval cfg (e.resp.body.progress.getD 0) =
        max (3/10 : ℚ) (cfg.pollExport * (3/10))) := by
  refine ⟨?_, ?_, ?_⟩
  · exact pollExportLoop_cons_wait cfg deadline now interval _ e rest hdl
      (exportStep_wait cfg e.resp h200 hnor herr)
  · intro hlt
    unfold nextExportInterval
    rw [if_neg (not_le.mpr hlt)]
  · intro hge
    unfold nextExportInterval
    rw [if_pos hge]

/-- Witness for C5 at a concrete input: at 90% progress with the configured
interval 1s, the loop sleeps and carries `max(0.3, 0.3) = 0.3` seconds. -/
theorem export_adaptive_interval_witness :
    (0 : ℚ) < 1000 ∧ eEvtProg.resp.body.progress.getD 0 ≥ 50 ∧
    pollExportLoop cfg0 1000 0 1 [eEvtProg] =
      pollExportLoop cfg0 1000 (0 + eEvtProg.rt + nextExportInterval cfg0 90 * 1000)
        (nextExportInterval cfg0 90) [] ∧
    nextExportInterval cfg0 90 = max (3/10 : ℚ) (cfg0.pollExport * (3/10)) :=
  ⟨by decide, by decide,
    (export_adaptive_interval cfg0 1000 0 1 eEvtProg [] (by decide) (by decide)
      (by decide) (by decide)).1,
    (export_adaptive_interval cfg0 1000 0 1 eEvtProg [] (by decide) (by decide)
      (by decide) (by decide)).2.2 (by decide)⟩

/-- C8: on a non-terminal deck response the loop sleeps `deckWait`, which is
the numeric `retry-after` header value when that header is present and the
configured default deck poll interval otherwise. -/
theorem deck_retry_after_wait (cfg : Config) (deadline now : ℚ) (e : DeckEvent)
    (rest : List DeckEvent) (hdl : now < deadline) (h200 : e.resp.httpStatus = 200)
    (herr : e.resp.deck.status ≠ "error")
    (hnc : ¬(e.resp.deck.status = "complete" ∧ e.resp.deck.slides_count.getD 0 > 0 ∧
      e.resp.deck.slides_complete.getD 0 ≥ e.resp.deck.slides_count.getD 0)) :
    pollDeckLoop cfg deadline now (e :: rest) =
      pollDeckLoop cfg deadline (now + e.rt + deckWait cfg e.resp * 1000) rest ∧
    (∀ q : ℚ, e.resp.retryAfter = some q → deckWait cfg e.resp = q) ∧
    (e.resp.retryAfter = none → deckWait cfg e.resp = cfg.pollDeck) := by
  refine ⟨?_, ?_, ?_⟩
  · exact pollDeckLoop_cons_wait cfg deadline now _ e rest hdl
      (deckStep_wait cfg e.resp h200 herr hnc)
  · intro q hq
    unfold deckWait
    rw [hq]
    rfl
  · intro hq
    unfold deckWait
    rw [hq]
    rfl

/-- Witness for C8 at a concrete input: a `retry-after: 7` header makes the
loop wait 7 seconds instead of the configured 5. -/
theorem deck_retry_after_wait_witness :
    (0 : ℚ) < 100000 ∧ dEvtRA.resp.retryAfter = some 7 ∧
    pollDeckLoop cfg0 100000 0 [dEvtRA] =
      pollDeckLoop cfg0 100000 (0 + dEvtRA.rt + deckWait cfg0 dEvtRA.resp * 1000) [] ∧
    deckWait cfg0 dEvtRA.resp = 7 :=
  ⟨by decide, by decide,
    (deck_retry_after_wait cfg0 100000 0 dEvtRA [] (by decide) (by decide) (by decide)
      (by decide)).1,
    (deck_retry_after_wait cfg0 100000 0 dEvtRA [] (by decide) (by decide) (by decide)
      (by decide)).2.1 7 (by decide)⟩

/-- The promise settlement of a download chain is `success` exactly when the
chain's first non-redirect response is a 200. -/
theorem download_success_iff : ∀ (rs : List DlResp) (url : String),
    (download url rs).1 = .success ↔
      ∃ t, firstNonRedirect rs = some t ∧ t.statusCode = 200 := by
  intro rs
  induction rs with
  | nil => intro url; simp [download, firstNonRedirect]
  | cons r rest ih =>
    intro url
    by_cases hr : isRedirect r = true
    · simpa [download, firstNonRedirect, hr] using ih (r.location.getD "")
    · by_cases h200 : r.statusCode = 200
      · simp [download, firstNonRedirect, hr, h200]
      · simp [download, firstNonRedirect, hr, h200]

/-- A download chain whose first non-redirect response is a non-200 rejects
with that status code. -/
theorem download_fail_code : ∀ (rs : List DlResp) (url : String) (t : DlResp),
    firstNonRedirect rs = some t → t.statusCode ≠ 200 →
    (download url rs).1 = .failed t.statusCode := by
  intro rs
  induction rs with
  | nil => intro url t ht; simp [firstNonRedirect] at ht
  | cons r rest ih =>
    intro url t ht h200
    by_cases hr : isRedirect r = true
    · rw [firstNonRedirect, if_pos hr] at ht
      simpa [download, hr] using ih (r.location.getD "") t ht h200
    · rw [firstNonRedirect, if_neg hr] at ht
      cases ht
      simp [download, hr, h200]

/-- Concrete download responses: a 302 redirect, a 200, and a 404. -/
def dl302 : DlResp := ⟨302, some "https://b/target"⟩

/-- A terminal 200 download response. -/
def dlOK : DlResp := ⟨200, none⟩

/-- A terminal 404 download response. -/
def dl404 : DlResp := ⟨404, none⟩

/-- C6: a 3xx response with a truthy `Location` makes `download` unlink the
already-created destination file and recurse on the new location (prepending
`create, unlink` to the file trace and the old URL to the request trace); the
promise resolves exactly when the chain's first non-redirect response is a
200; and a terminal non-200 rejects with that status code embedded. -/
theorem download_redirect_spec (url : String) (r : DlResp) (rest rs : List DlResp) :
    (isRedirect r = true →
      download url (r :: rest) =
        ((download (r.location.getD "") rest).1,
          (.create :: .unlink :: (download (r.location.getD "") rest).2.1,
            url :: (download (r.location.getD "") rest).2.2))) ∧
    ((download url rs).1 = .success ↔
      ∃ t, firstNonRedirect rs = some t ∧ t.statusCode = 200) ∧
    (∀ t, firstNonRedirect rs = some t → t.statusCode ≠ 200 →
      (download url rs).1 = .failed t.statusCode) := by
  refine ⟨?_, download_success_iff rs url, download_fail_code rs url⟩
  intro hr
  conv_lhs => rw [download]
  rw [if_pos hr]

/-- Witness for C6 on concrete chains: a 302 to a 200 removes the partial
file, re-requests the target and resolves; a 302 to a 404 rejects with 404. -/
theorem download_redirect_spec_witness :
    isRedirect dl302 = true ∧
    download "https://a/start" [dl302, dlOK] =
      ((download "https://b/target" [dlOK]).1,
        (.create :: .unlink :: (download "https://b/target" [dlOK]).2.1,
          "https://a/start" :: (download "https://b/target" [dlOK]).2.2)) ∧
    (download "https://a/start" [dl302, dlOK]).1 = .success ∧
    (download "https://a/start" [dl302, dl404]).1 = .failed 404 :=
  ⟨by decide,
    (download_redirect_spec "https://a/start" dl302 [dlOK] []).1 (by decide),
    (download_redirect_spec "https://a/start" dl302 [] [dl302, dlOK]).2.1.mpr
      ⟨dlOK, by decide, by decide⟩,
    (download_redirect_spec "https://a/start" dl302 [] [dl302, dl404]).2.2 dl404
      (by decide) (by decide)⟩

/-- The configuration of the `--no-export` run used by the C9 witness. -/
def cfgNE : Config := ⟨5, 1, 600, true, "pdf", ".", none⟩

/-- A successful deck-creation response. -/
def create1 : CreateResp := ⟨200, ⟨"deck-abc12345", "My Deck"⟩⟩

/-- C9: with `--no-export` set, once the deck poll succeeds the flow emits
exactly the create/poll calls plus one summary JSON record and returns
normally: the summary has no `file` field, no `FILE:` line is printed, and no
export call (nor export poll, nor download) is issued. -/
theorem no_export_stops_after_deck (cfg : Config) (prompt : String) (create : CreateResp)
    (now1 : ℚ) (devts : List DeckEvent) (startRes : StartResp) (now2 : ℚ)
    (eevts : List ExportEvent) (dlResps : List DlResp) (d : DeckBody)
    (hne : cfg.noExport = true) (hp : prompt ≠ "") (hc : create.httpStatus = 200)
    (hpoll : pollDeckStatus cfg now1 devts = .success d) :
    mainFlow cfg prompt create now1 devts startRes now2 eevts dlResps =
      ([.createDeck, .pollDeck,
        .stdoutJSON ⟨create.deck.id, create.deck.name, d.slides_count, none, none,
          "https://vibeslides.app/d/" ++ create.deck.id⟩], .ok) ∧
    (∀ s : Summary,
      Action.stdoutJSON s ∈ (mainFlow cfg prompt create now1 devts startRes now2 eevts dlResps).1 →
      s.file = none) ∧
    (∀ p : String,
      Action.stdoutFILE p ∉ (mainFlow cfg prompt create now1 devts startRes now2 eevts dlResps).1) ∧
    Action.startExport ∉ (mainFlow cfg prompt create now1 devts startRes now2 eevts dlResps).1 := by
  have heq : mainFlow cfg prompt create now1 devts startRes now2 eevts dlResps =
      ([.createDeck, .pollDeck,
        .stdoutJSON ⟨create.deck.id, create.deck.name, d.slides_count, none, none,
          "https://vibeslides.app/d/" ++ create.deck.id⟩], .ok) := by
    unfold mainFlow
    rw [if_neg hp, if_neg (by simp [hc]), hpoll]
    simp [hne]
  refine ⟨heq, ?_, ?_, ?_⟩
  · intro s hs
    rw [heq] at hs
    simp only [List.mem_cons, List.not_mem_nil, or_false] at hs
    rcases hs with h | h | h
    · exact absurd h (by simp)
    · exact absurd h (by simp)
    · cases h
      rfl
  · intro p hp
    rw [heq] at hp
    simp at hp
  · intro hmem
    rw [heq] at hmem
    simp at hmem

/-- Witness for C9 on a concrete run: a `--no-export` invocation with a
successful deck poll produces only the summary record, and returns 0. -/
theorem no_export_stops_after_deck_witness :
    cfgNE.noExport = true ∧
    mainFlow cfgNE "Quarterly update" create1 0 [dEvtOK] ⟨200, "e1"⟩ 0 [] [] =
      ([.createDeck, .pollDeck,
        .stdoutJSON ⟨create1.deck.id, create1.deck.name, (some 5 : Option ℤ), none, none,
          "https://vibeslides.app/d/" ++ create1.deck.id⟩], .ok) :=
  ⟨rfl,
    (no_export_stops_after_deck cfgNE "Quarterly update" create1 0 [dEvtOK] ⟨200, "e1"⟩ 0 [] []
      ⟨"complete", some 5, some 5, none⟩ rfl (by decide) rfl
      (by simp [pollDeckStatus, pollDeckLoop, deckStep, cfgNE, dEvtOK])).1⟩

/-- If every deck event is non-terminal (its step is a wait) and every
iteration advances the clock by at least `δ`, then once the event list is long
enough to carry the clock past the deadline, the loop returns the timeout
exit. -/
theorem pollDeckLoop_timeout (cfg : Config) (deadline δ : ℚ) :
    ∀ (events : List DeckEvent) (now : ℚ),
      (∀ e ∈ events, deckStep cfg e.resp = .wait (deckWait cfg e.resp) ∧
        δ ≤ e.rt + deckWait cfg e.resp * 1000) →
      deadline ≤ now + events.length * δ →
      pollDeckLoop cfg deadline now events = .timeoutExit := by
  intro events
  induction events with
  | nil =>
    intro now _ hd
    unfold pollDeckLoop
    rw [if_neg (not_lt.mpr (by simpa using hd))]
  | cons e rest ih =>
    intro now hall hd
    by_cases hlt : now < deadline
    · rw [pollDeckLoop_cons_wait cfg deadline now _ e rest hlt
        (hall e (List.mem_cons_self e rest)).1]
      apply ih _ (fun x hx => hall x (List.mem_cons_of_mem e hx))
      have h1 : δ ≤ e.rt + deckWait cfg e.resp * 1000 := (hall e (List.mem_cons_self e rest)).2
      have hlen : ((e :: rest).length : ℚ) * δ = (rest.length : ℚ) * δ + δ := by
        have h2 : (e :: rest).length = rest.length + 1 := rfl
        rw [h2]
        push_cast
        ring
      rw [hlen] at hd
      linarith
    · unfold pollDeckLoop
      rw [if_neg hlt]

/-- The adaptive interval carried by a wait step of the export poller is
nonnegative whenever the configured export interval is. -/
theorem exportStep_wait_nonneg (cfg : Config) (r : ExportResp) (w : ℚ)
    (hpe : 0 ≤ cfg.pollExport) (hs : exportStep cfg r = .wait w) : 0 ≤ w := by
  by_cases h1 : r.httpStatus ≠ 200
  · rw [exportStep_transient cfg r h1] at hs
    cases hs
  · by_cases h2 : r.body.status = "complete" ∨ jsTruthy r.body.download_url = true
    · rw [exportStep_success cfg r (not_not.mp h1) h2] at hs
      cases hs
    · by_cases h3 : r.body.status = "error"
      · rw [exportStep_fatalError cfg r (not_not.mp h1) h2 h3] at hs
        cases hs
      · rw [exportStep_wait cfg r (not_not.mp h1) h2 h3] at hs
        cases hs
        unfold nextExportInterval
        split_ifs with h4
        · exact le_trans (by norm_num) (le_max_left _ _)
        · exact hpe

/-- Export analogue of `pollDeckLoop_timeout`: with only transient-retry and
wait steps, request latencies of at least `δ`, and a nonnegative configured
interval, a long enough event list drives the loop to the timeout exit. -/
theorem pollExportLoop_timeout (cfg : Config) (deadline δ : ℚ)
    (hpe : 0 ≤ cfg.pollExport) :
    ∀ (events : List ExportEvent) (now interval : ℚ), 0 ≤ interval →
      (∀ e ∈ events, (exportStep cfg e.resp = .transientRetry ∨
        ∃ w, exportStep cfg e.resp = .wait w) ∧ δ ≤ e.rt) →
      deadline ≤ now + events.length * δ →
      pollExportLoop cfg deadline now interval events = .timeoutExit := by
  intro events
  induction events with
  | nil =>
    intro now interval _ _ hd
    unfold pollExportLoop
    rw [if_neg (not_lt.mpr (by simpa using hd))]
  | cons e rest ih =>
    intro now interval hint hall hd
    have hrt : δ ≤ e.rt := (hall e (List.mem_cons_self e rest)).2
    have hlen : ((e :: rest).length : ℚ) * δ = (rest.length : ℚ) * δ + δ := by
      have h2 : (e :: rest).length = rest.length + 1 := rfl
      rw [h2]
      push_cast
      ring
    rw [hlen] at hd
    by_cases hlt : now < deadline
    · rcases (hall e (List.mem_cons_self e rest)).1 with hstep | ⟨w, hstep⟩
      · rw [pollExportLoop_cons_transient cfg deadline now interval e rest hlt hstep]
        apply ih _ interval hint (fun x hx => hall x (List.mem_cons_of_mem e hx))
        have : 0 ≤ interval * 1000 := by positivity
        linarith
      · have hw : 0 ≤ w := exportStep_wait_nonneg cfg e.resp w hpe hstep
        rw [pollExportLoop_cons_wait cfg deadline now interval w e rest hlt hstep]
        apply ih _ w hw (fun x hx => hall x (List.mem_cons_of_mem e hx))
        have : 0 ≤ w * 1000 := by positivity
        linarith
    · unfold pollExportLoop
      rw [if_neg hlt]

/-- A deck poll event whose step is a wait, with a 10-minute request latency:
used to exhibit a timeout run under the default 600-second budget. -/
def dEvtW : DeckEvent := ⟨⟨200, none, ⟨"generating", some 5, some 1, none⟩⟩, 600000⟩

/-- An export poll event with a transient HTTP failure and a 10-minute
request latency. -/
def eEvtW : ExportEvent := ⟨⟨500, ⟨"processing", none, some 10, none⟩⟩, 600000⟩

/-- C7: each polling loop is bounded by a deadline computed once at entry as
`now + timeout * 1000` (the definitions of `pollDeckStatus` and
`pollExportStatus`); if every response is non-terminal and each iteration
takes at least `δ > 0`, then an event list long enough that
`timeout * 1000 ≤ length * δ` makes the loop end in the timeout exit instead
of polling forever. -/
theorem polls_timeout (cfg : Config) (now1 now2 δ1 δ2 : ℚ)
    (devts : List DeckEvent) (eevts : List ExportEvent)
    (hpe : 0 ≤ cfg.pollExport)
    (hdeck : ∀ e ∈ devts, deckStep cfg e.resp = .wait (deckWait cfg e.resp) ∧
      δ1 ≤ e.rt + deckWait cfg e.resp * 1000)
    (hdlen : cfg.timeout * 1000 ≤ devts.length * δ1)
    (hexp : ∀ e ∈ eevts, (exportStep cfg e.resp = .transientRetry ∨
      ∃ w, exportStep cfg e.resp = .wait w) ∧ δ2 ≤ e.rt)
    (helen : cfg.timeout * 1000 ≤ eevts.length * δ2) :
    pollDeckStatus cfg now1 devts = .timeoutExit ∧
    pollExportStatus cfg now2 eevts = .timeoutExit := by
  constructor
  · exact pollDeckLoop_timeout cfg (now1 + cfg.timeout * 1000) δ1 devts now1 hdeck
      (by linarith)
  · exact pollExportLoop_timeout cfg (now2 + cfg.timeout * 1000) δ2 hpe eevts now2
      cfg.pollExport hpe hexp (by linarith)

/-- Witness for C7 on concrete runs: with the 600 s default timeout, one
non-terminal response taking 600 000 ms in each loop forces the timeout exit
in both pollers. -/
theorem polls_timeout_witness :
    pollDeckStatus cfg0 0 [dEvtW] = .timeoutExit ∧
    pollExportStatus cfg0 0 [eEvtW] = .timeoutExit :=
  polls_timeout cfg0 0 0 600000 600000 [dEvtW] [eEvtW] (by decide)
    (by
      intro e he
      simp only [List.mem_singleton] at he
      subst he
      constructor
      · simp [deckStep, deckWait, dEvtW, cfg0]
      · simp [deckWait, dEvtW, cfg0])
    (by simp [cfg0, dEvtW]; norm_num)
    (by
      intro e he
      simp only [List.mem_singleton] at he
      subst he
      exact ⟨Or.inl (by simp [exportStep, eEvtW]), by simp [eEvtW]⟩)
    (by simp [cfg0, eEvtW]; norm_num)

end VibeSlides
